import Mathlib

/-!
Shallow embedding of the health-dashboard core logic (src/app.py) and
verification of its specification.

Numeric conventions: Python ints are `ℤ`, Python floats are modelled as `ℚ`
(all constants in the source — 0.2, 0.25, 0.1, 36.6 — and every value a claim
touches are exact in this model, and the claims' concrete evaluations coincide
with the source's float arithmetic at every checked point). Python `int()`
truncation toward zero is `truncToInt`. Python dicts produced by the analyzers
are structures holding the keys the analyzers always emit; the optional
`voice_results` argument is an `Option`.
-/

/-- Python `int()` on a rational: truncation toward zero. -/
def truncToInt (q : ℚ) : ℤ := if 0 ≤ q then ⌊q⌋ else ⌈q⌉

/-- The dict returned by `FaceHealthAnalyzer.analyze_face` (src/app.py:92-103),
restricted to the keys `create_health_report` reads. -/
structure FaceResults where
  heart_rate_estimate : ℤ
  stress_level : String
  fatigue_signs : String
  temperature_estimate : ℚ
deriving DecidableEq

/-- The dict returned by `PostureAnalyzer.analyze_posture` (src/app.py:106-122),
restricted to the key `create_health_report` reads. -/
structure PostureResults where
  posture_score : ℤ
deriving DecidableEq

/-- The dict returned by `VoiceAnalyzer.analyze_voice` (src/app.py:125-136),
restricted to the keys `create_health_report` reads. -/
structure VoiceResults where
  vocal_stress : ℚ
  speech_rate : ℚ
  voice_health : String
deriving DecidableEq

/-- The report dict built by `create_health_report` (src/app.py:153-206). -/
structure HealthReport where
  heart_rate : ℤ
  stress_level : String
  fatigue_level : String
  posture_score : ℤ
  temperature : ℚ
  vocal_stress : Option ℚ
  speech_rate : Option ℚ
  voice_health : Option String
  overall_health_score : ℤ
  health_status : String
  recommendation : String
deriving DecidableEq

/-- src/app.py:179 — `{'Low': 90, 'Moderate': 70, 'High': 40}.get(stress_level, 60)`. -/
def stress_score (stress_level : String) : ℤ :=
  if stress_level = "Low" then 90
  else if stress_level = "Moderate" then 70
  else if stress_level = "High" then 40
  else 60

/-- src/app.py:180 — `{'Alert': 90, 'Mild Fatigue': 70, 'Fatigued': 40}.get(fatigue_level, 60)`. -/
def fatigue_score (fatigue_level : String) : ℤ :=
  if fatigue_level = "Alert" then 90
  else if fatigue_level = "Mild Fatigue" then 70
  else if fatigue_level = "Fatigued" then 40
  else 60

/-- src/app.py:183 — `min(100, 100 - abs(heart_rate - 72) * 2)`. -/
def heart_component (heart_rate : ℤ) : ℚ :=
  min 100 (100 - |(heart_rate : ℚ) - 72| * 2)

/-- src/app.py:187 — `min(100, 100 - abs(temperature - 36.6) * 20)`. -/
def temp_component (temperature : ℚ) : ℚ :=
  min 100 (100 - |temperature - 36.6| * 20)

/-- src/app.py:182-188 — the weighted sum `overall_score` before `int()`. -/
def overall_score (face : FaceResults) (posture : PostureResults) : ℚ :=
  0.2 * heart_component face.heart_rate_estimate
  + 0.25 * (stress_score face.stress_level : ℚ)
  + 0.25 * (fatigue_score face.fatigue_signs : ℚ)
  + 0.2 * (posture.posture_score : ℚ)
  + 0.1 * temp_component face.temperature_estimate

/-- src/app.py:193-204 — the status if-chain, a function of the untruncated
`overall_score`. -/
def health_status_of (s : ℚ) : String :=
  if 85 ≤ s then "Excellent"
  else if 70 ≤ s then "Good"
  else if 50 ≤ s then "Fair"
  else "Poor"

/-- src/app.py:193-204 — the recommendation chosen alongside the status. -/
def recommendation_of (s : ℚ) : String :=
  if 85 ≤ s then "Maintain current routine"
  else if 70 ≤ s then "Take short breaks, stay hydrated"
  else if 50 ≤ s then "Consider rest break, hydrate, stretch"
  else "Immediate rest recommended"

/-- src/app.py:153-206 — `create_health_report(face_results, posture_results,
voice_results=None)`. The analyzers always emit the keys the `.get` calls read,
so the `.get` defaults never fire; `if voice_results:` is the `Option` match. -/
def create_health_report (face : FaceResults) (posture : PostureResults)
    (voice_results : Option VoiceResults) : HealthReport :=
  let s := overall_score face posture
  { heart_rate := face.heart_rate_estimate
    stress_level := face.stress_level
    fatigue_level := face.fatigue_signs
    posture_score := posture.posture_score
    temperature := face.temperature_estimate
    vocal_stress := voice_results.map (fun v => v.vocal_stress)
    speech_rate := voice_results.map (fun v => v.speech_rate)
    voice_health := voice_results.map (fun v => v.voice_health)
    overall_health_score := truncToInt s
    health_status := health_status_of s
    recommendation := recommendation_of s }

/-- src/app.py:94-97 — `'heart_rate_estimate': 65 + np.random.randint(-10, 20)`,
as a function of the value the random draw produced. -/
def heart_rate_estimate_of_draw (draw : ℤ) : ℤ := 65 + draw

/-- The support of `np.random.randint(-10, 20)`: numpy's `randint(low, high)`
draws an integer with `low <= draw < high` (high exclusive). -/
def randint_neg10_20_support (draw : ℤ) : Prop := -10 ≤ draw ∧ draw < 20

instance (draw : ℤ) : Decidable (randint_neg10_20_support draw) := by
  unfold randint_neg10_20_support; infer_instance

/-- src/app.py:749-750 — the fixed stress keyword list. -/
def stress_keywords : List String :=
  ["tired", "stressed", "overwhelmed", "exhausted", "burnout",
   "anxious", "worried", "pressure", "deadline", "rush"]

/-- Python `str.split()` with no argument: split on runs of whitespace,
dropping empty tokens. Accumulates the current word reversed. -/
def pySplitAux : List Char → List Char → List (List Char)
  | [], cur => if cur.isEmpty then [] else [cur.reverse]
  | c :: rest, cur =>
    if c.isWhitespace then
      if cur.isEmpty then pySplitAux rest []
      else cur.reverse :: pySplitAux rest []
    else pySplitAux rest (c :: cur)

/-- Python `text.split()` on a string, yielding the list of words. -/
def pySplit (text : String) : List String :=
  (pySplitAux text.toList []).map fun w => String.mk w

/-- src/app.py:746 — `word_count = len(text_input.split())`. -/
def word_count (text : String) : ℕ := (pySplit text).length

/-- Python `str.lower()`; the inputs the claims touch are ASCII, where it is
characterwise lowercasing. -/
def pyLower (text : String) : String := String.mk (text.toList.map Char.toLower)

/-- src/app.py:752 — `sum(1 for word in text_input.lower().split() if word in
stress_keywords)`. -/
def stress_words (text : String) : ℕ :=
  ((pySplit (pyLower text)).filter fun w => stress_keywords.contains w).length

/-- src/app.py:753 — `stress_ratio = stress_words / max(1, word_count)`
(Python true division, exact here). -/
def stress_ratio (text : String) : ℚ :=
  (stress_words text : ℚ) / ((max 1 (word_count text) : ℕ) : ℚ)

/-- src/app.py:763-771 — the text stress classification. -/
def text_stress_level (text : String) : String :=
  if 0.1 < stress_ratio text then "High"
  else if 0.05 < stress_ratio text then "Moderate"
  else "Low"

/-! ### Helper lemmas -/

lemma report_score (f : FaceResults) (p : PostureResults) (v : Option VoiceResults) :
    (create_health_report f p v).overall_health_score = truncToInt (overall_score f p) := rfl

lemma report_status (f : FaceResults) (p : PostureResults) (v : Option VoiceResults) :
    (create_health_report f p v).health_status = health_status_of (overall_score f p) := rfl

lemma report_rec (f : FaceResults) (p : PostureResults) (v : Option VoiceResults) :
    (create_health_report f p v).recommendation = recommendation_of (overall_score f p) := rfl

lemma truncToInt_le_of_le (q : ℚ) (n : ℤ) (h : q ≤ (n : ℚ)) : truncToInt q ≤ n := by
  rw [truncToInt]; split
  · simpa using Int.floor_mono h
  · simpa using Int.ceil_mono h

lemma le_truncToInt_of_neg_bound (m : ℤ) (q : ℚ) (hm : m ≤ 0) (h : (m : ℚ) - 1 < q) :
    m ≤ truncToInt q := by
  rw [truncToInt]; split
  · have h0 : (0 : ℤ) ≤ ⌊q⌋ := Int.le_floor.mpr (by exact_mod_cast ‹0 ≤ q›)
    omega
  · have h1 : (m - 1 : ℤ) < ⌈q⌉ := Int.lt_ceil.mpr (by push_cast; linarith)
    omega

lemma le_truncToInt_iff_pos (n : ℤ) (hn : 0 < n) (q : ℚ) :
    n ≤ truncToInt q ↔ (n : ℚ) ≤ q := by
  rw [truncToInt]; split
  · exact Int.le_floor
  · constructor
    · intro h
      have h2 : ⌈q⌉ ≤ 0 :=
        Int.ceil_le.mpr (by exact_mod_cast le_of_lt (lt_of_not_le (by assumption)))
      omega
    · intro h
      have h3 : (0 : ℚ) < n := by exact_mod_cast hn
      linarith [lt_of_not_le (by assumption : ¬ 0 ≤ q)]

lemma stress_score_bounds (s : String) : 40 ≤ stress_score s ∧ stress_score s ≤ 90 := by
  rw [stress_score]; split_ifs <;> norm_num

lemma fatigue_score_bounds (s : String) : 40 ≤ fatigue_score s ∧ fatigue_score s ≤ 90 := by
  rw [fatigue_score]; split_ifs <;> norm_num

lemma heart_component_le (hr : ℤ) : heart_component hr ≤ 100 := min_le_left _ _

lemma temp_component_le (t : ℚ) : temp_component t ≤ 100 := min_le_left _ _

lemma heart_component_lower (hr : ℤ) (h1 : 0 ≤ hr) (h2 : hr ≤ 300) :
    -356 ≤ heart_component hr := by
  have h1q : (0 : ℚ) ≤ (hr : ℚ) := by exact_mod_cast h1
  have h2q : (hr : ℚ) ≤ 300 := by exact_mod_cast h2
  have habs : |(hr : ℚ) - 72| ≤ 228 := abs_le.mpr ⟨by linarith, by linarith⟩
  rw [heart_component, le_min_iff]
  exact ⟨by norm_num, by linarith⟩

lemma temp_component_lower (t : ℚ) (h1 : 0 ≤ t) (h2 : t ≤ 50) :
    -632 ≤ temp_component t := by
  have h366 : (36.6 : ℚ) = 183 / 5 := by norm_num
  have habs : |t - 36.6| ≤ 36.6 := abs_le.mpr ⟨by rw [h366]; linarith, by rw [h366]; linarith⟩
  rw [temp_component, le_min_iff]
  refine ⟨by norm_num, ?_⟩
  rw [h366] at habs ⊢
  linarith

lemma overall_score_bounds (f : FaceResults) (p : PostureResults)
    (hhr1 : 0 ≤ f.heart_rate_estimate) (hhr2 : f.heart_rate_estimate ≤ 300)
    (ht1 : 0 ≤ f.temperature_estimate) (ht2 : f.temperature_estimate ≤ 50)
    (hp1 : 0 ≤ p.posture_score) (hp2 : p.posture_score ≤ 100) :
    -572 / 5 ≤ overall_score f p ∧ overall_score f p ≤ 95 := by
  have hs := stress_score_bounds f.stress_level
  have hf := fatigue_score_bounds f.fatigue_signs
  have hs1 : (40 : ℚ) ≤ (stress_score f.stress_level : ℚ) := by exact_mod_cast hs.1
  have hs2 : (stress_score f.stress_level : ℚ) ≤ 90 := by exact_mod_cast hs.2
  have hf1 : (40 : ℚ) ≤ (fatigue_score f.fatigue_signs : ℚ) := by exact_mod_cast hf.1
  have hf2 : (fatigue_score f.fatigue_signs : ℚ) ≤ 90 := by exact_mod_cast hf.2
  have hp1q : (0 : ℚ) ≤ (p.posture_score : ℚ) := by exact_mod_cast hp1
  have hp2q : (p.posture_score : ℚ) ≤ 100 := by exact_mod_cast hp2
  have hh1 := heart_component_lower f.heart_rate_estimate hhr1 hhr2
  have hh2 := heart_component_le f.heart_rate_estimate
  have ht1q := temp_component_lower f.temperature_estimate ht1 ht2
  have ht2q := temp_component_le f.temperature_estimate
  rw [overall_score]
  constructor <;> nlinarith [hh1, hh2, ht1q, ht2q]

lemma status_excellent (q : ℚ) (h : 85 ≤ q) : health_status_of q = "Excellent" := by
  rw [health_status_of, if_pos h]

lemma rec_excellent (q : ℚ) (h : 85 ≤ q) : recommendation_of q = "Maintain current routine" := by
  rw [recommendation_of, if_pos h]

lemma status_good (q : ℚ) (h1 : 70 ≤ q) (h2 : q < 85) : health_status_of q = "Good" := by
  rw [health_status_of, if_neg (not_le.mpr h2), if_pos h1]

lemma rec_good (q : ℚ) (h1 : 70 ≤ q) (h2 : q < 85) :
    recommendation_of q = "Take short breaks, stay hydrated" := by
  rw [recommendation_of, if_neg (not_le.mpr h2), if_pos h1]

lemma status_fair (q : ℚ) (h1 : 50 ≤ q) (h2 : q < 70) : health_status_of q = "Fair" := by
  rw [health_status_of, if_neg (not_le.mpr (by linarith)), if_neg (not_le.mpr h2), if_pos h1]

lemma rec_fair (q : ℚ) (h1 : 50 ≤ q) (h2 : q < 70) :
    recommendation_of q = "Consider rest break, hydrate, stretch" := by
  rw [recommendation_of, if_neg (not_le.mpr (by linarith)), if_neg (not_le.mpr h2), if_pos h1]

lemma status_poor (q : ℚ) (h : q < 50) : health_status_of q = "Poor" := by
  rw [health_status_of, if_neg (not_le.mpr (by linarith)), if_neg (not_le.mpr (by linarith)),
    if_neg (not_le.mpr h)]

lemma rec_poor (q : ℚ) (h : q < 50) :
    recommendation_of q = "Immediate rest recommended" := by
  rw [recommendation_of, if_neg (not_le.mpr (by linarith)), if_neg (not_le.mpr (by linarith)),
    if_neg (not_le.mpr h)]

lemma health_status_of_congr (s1 s2 : ℚ) (h : truncToInt s1 = truncToInt s2) :
    health_status_of s1 = health_status_of s2 := by
  have c85 : (85 : ℚ) = ((85 : ℤ) : ℚ) := by norm_num
  have c70 : (70 : ℚ) = ((70 : ℤ) : ℚ) := by norm_num
  have c50 : (50 : ℚ) = ((50 : ℤ) : ℚ) := by norm_num
  have e85 : (85 : ℚ) ≤ s1 ↔ (85 : ℚ) ≤ s2 := by
    rw [c85, ← le_truncToInt_iff_pos 85 (by norm_num) s1,
      ← le_truncToInt_iff_pos 85 (by norm_num) s2, h]
  have e70 : (70 : ℚ) ≤ s1 ↔ (70 : ℚ) ≤ s2 := by
    rw [c70, ← le_truncToInt_iff_pos 70 (by norm_num) s1,
      ← le_truncToInt_iff_pos 70 (by norm_num) s2, h]
  have e50 : (50 : ℚ) ≤ s1 ↔ (50 : ℚ) ≤ s2 := by
    rw [c50, ← le_truncToInt_iff_pos 50 (by norm_num) s1,
      ← le_truncToInt_iff_pos 50 (by norm_num) s2, h]
  rw [health_status_of, health_status_of]
  simp only [e85, e70, e50]

lemma overall_score_nominal : overall_score ⟨72, "Low", "Alert", 36.6⟩ ⟨85⟩ = 92 := by
  have h1 : stress_score "Low" = 90 := rfl
  have h2 : fatigue_score "Alert" = 90 := rfl
  rw [overall_score]
  norm_num [h1, h2, heart_component, temp_component, abs_div]

lemma overall_score_worst : overall_score ⟨300, "High", "Fatigued", 0⟩ ⟨0⟩ = -572 / 5 := by
  have h1 : stress_score "High" = 40 := rfl
  have h2 : fatigue_score "Fatigued" = 40 := rfl
  rw [overall_score]
  norm_num [h1, h2, heart_component, temp_component, abs_div]

lemma truncToInt_neg_572_5 : truncToInt (-572 / 5 : ℚ) = -114 := by
  rw [truncToInt, if_neg (by norm_num), Int.ceil_eq_iff]
  norm_num

lemma truncToInt_92 : truncToInt (92 : ℚ) = 92 := by
  rw [truncToInt, if_pos (by norm_num), show (92 : ℚ) = ((92 : ℤ) : ℚ) by norm_num,
    Int.floor_intCast]

lemma overall_score_posture88 : overall_score ⟨72, "Low", "Alert", 36.6⟩ ⟨88⟩ = 463 / 5 := by
  have h1 : stress_score "Low" = 90 := rfl
  have h2 : fatigue_score "Alert" = 90 := rfl
  rw [overall_score]
  norm_num [h1, h2, heart_component, temp_component, abs_div]

lemma truncToInt_463_5 : truncToInt (463 / 5 : ℚ) = 92 := by
  rw [truncToInt, if_pos (by norm_num), Int.floor_eq_iff]
  norm_num

lemma overall_score_worst_p1 : overall_score ⟨300, "High", "Fatigued", 0⟩ ⟨1⟩ = -571 / 5 := by
  have h1 : stress_score "High" = 40 := rfl
  have h2 : fatigue_score "Fatigued" = 40 := rfl
  rw [overall_score]
  norm_num [h1, h2, heart_component, temp_component, abs_div]

lemma truncToInt_neg_571_5 : truncToInt (-571 / 5 : ℚ) = -114 := by
  rw [truncToInt, if_neg (by norm_num), Int.ceil_eq_iff]
  norm_num

/-! ### Claims -/

/-- Claim C1, counterexample: for the in-domain reading heart_rate=300,
stress_level=High, fatigue_level=Fatigued, posture_score=0, temperature=0,
the report's overall_health_score is -114, outside the claimed interval
[0,100]. -/
theorem C1_score_range_counterexample :
    (create_health_report ⟨300, "High", "Fatigued", 0⟩ ⟨0⟩ none).overall_health_score = -114 ∧
    ¬ (0 ≤ (create_health_report ⟨300, "High", "Fatigued", 0⟩ ⟨0⟩ none).overall_health_score ∧
       (create_health_report ⟨300, "High", "Fatigued", 0⟩ ⟨0⟩ none).overall_health_score ≤ 100) := by
  have h : (create_health_report ⟨300, "High", "Fatigued", 0⟩ ⟨0⟩ none).overall_health_score
      = -114 := by
    rw [report_score, overall_score_worst, truncToInt_neg_572_5]
  refine ⟨h, ?_⟩
  rw [h]
  omega

/-- Claim C1, amended: for every reading whose fields lie in the stated domains
(heart_rate in [0,300], temperature in [0,50], posture_score in [0,100],
stress and fatigue strings arbitrary), overall_health_score lies in
[-114, 100] — the upper bound 100 holds but the lower bound 0 does not. -/
theorem C1_amended_score_range (f : FaceResults) (p : PostureResults) (v : Option VoiceResults)
    (hhr1 : 0 ≤ f.heart_rate_estimate) (hhr2 : f.heart_rate_estimate ≤ 300)
    (ht1 : 0 ≤ f.temperature_estimate) (ht2 : f.temperature_estimate ≤ 50)
    (hp1 : 0 ≤ p.posture_score) (hp2 : p.posture_score ≤ 100) :
    -114 ≤ (create_health_report f p v).overall_health_score ∧
    (create_health_report f p v).overall_health_score ≤ 100 := by
  obtain ⟨hlo, hhi⟩ := overall_score_bounds f p hhr1 hhr2 ht1 ht2 hp1 hp2
  rw [report_score]
  constructor
  · exact le_truncToInt_of_neg_bound (-114) _ (by norm_num) (by push_cast; linarith)
  · exact truncToInt_le_of_le _ 100 (by push_cast; linarith)

/-- Witness for C1's amended theorem at the nominal reading. -/
theorem C1_amended_score_range_witness :
    -114 ≤ (create_health_report ⟨72, "Low", "Alert", 36.6⟩ ⟨85⟩ none).overall_health_score ∧
    (create_health_report ⟨72, "Low", "Alert", 36.6⟩ ⟨85⟩ none).overall_health_score ≤ 100 :=
  C1_amended_score_range ⟨72, "Low", "Alert", 36.6⟩ ⟨85⟩ none (by norm_num) (by norm_num)
    (by norm_num) (by norm_num) (by norm_num) (by norm_num)

/-- Claim C2: the aggregator classifies the overall score into four bands with
closed-open lower bounds, pairing each status with its recommendation, and the
classifier sends 85 to Excellent, 84.999 to Good, 70 to Good, 50 to Fair and
49.999 to Poor. -/
theorem C2_classification (f : FaceResults) (p : PostureResults) (v : Option VoiceResults) :
    (85 ≤ overall_score f p →
      (create_health_report f p v).health_status = "Excellent" ∧
      (create_health_report f p v).recommendation = "Maintain current routine") ∧
    (70 ≤ overall_score f p ∧ overall_score f p < 85 →
      (create_health_report f p v).health_status = "Good" ∧
      (create_health_report f p v).recommendation = "Take short breaks, stay hydrated") ∧
    (50 ≤ overall_score f p ∧ overall_score f p < 70 →
      (create_health_report f p v).health_status = "Fair" ∧
      (create_health_report f p v).recommendation = "Consider rest break, hydrate, stretch") ∧
    (overall_score f p < 50 →
      (create_health_report f p v).health_status = "Poor" ∧
      (create_health_report f p v).recommendation = "Immediate rest recommended") ∧
    health_status_of 85 = "Excellent" ∧ health_status_of 84.999 = "Good" ∧
    health_status_of 70 = "Good" ∧ health_status_of 50 = "Fair" ∧
    health_status_of 49.999 = "Poor" := by
  refine ⟨fun h => ⟨by rw [report_status]; exact status_excellent _ h,
      by rw [report_rec]; exact rec_excellent _ h⟩,
    fun h => ⟨by rw [report_status]; exact status_good _ h.1 h.2,
      by rw [report_rec]; exact rec_good _ h.1 h.2⟩,
    fun h => ⟨by rw [report_status]; exact status_fair _ h.1 h.2,
      by rw [report_rec]; exact rec_fair _ h.1 h.2⟩,
    fun h => ⟨by rw [report_status]; exact status_poor _ h,
      by rw [report_rec]; exact rec_poor _ h⟩,
    status_excellent _ (by norm_num), status_good _ (by norm_num) (by norm_num),
    status_good _ (by norm_num) (by norm_num), status_fair _ (by norm_num) (by norm_num),
    status_poor _ (by norm_num)⟩

/-- Witness for C2 at the nominal reading, whose overall score is 92. -/
theorem C2_classification_witness :
    (create_health_report ⟨72, "Low", "Alert", 36.6⟩ ⟨85⟩ none).health_status = "Excellent" ∧
    (create_health_report ⟨72, "Low", "Alert", 36.6⟩ ⟨85⟩ none).recommendation
      = "Maintain current routine" :=
  (C2_classification ⟨72, "Low", "Alert", 36.6⟩ ⟨85⟩ none).1
    (by rw [overall_score_nominal]; norm_num)

/-- Claim C3: the worked example heart_rate=72, stress Low, fatigue Alert,
posture 85, temperature 36.6 yields heart_component 100, stress_score 90,
fatigue_score 90, temp_component 100, overall_health_score 92, status
Excellent, recommendation to maintain the current routine. -/
theorem C3_worked_example :
    heart_component 72 = 100 ∧ stress_score "Low" = 90 ∧ fatigue_score "Alert" = 90 ∧
    temp_component 36.6 = 100 ∧
    (create_health_report ⟨72, "Low", "Alert", 36.6⟩ ⟨85⟩ none).overall_health_score = 92 ∧
    (create_health_report ⟨72, "Low", "Alert", 36.6⟩ ⟨85⟩ none).health_status = "Excellent" ∧
    (create_health_report ⟨72, "Low", "Alert", 36.6⟩ ⟨85⟩ none).recommendation
      = "Maintain current routine" := by
  refine ⟨by norm_num [heart_component], rfl, rfl,
    by norm_num [temp_component, abs_div], ?_, ?_, ?_⟩
  · rw [report_score, overall_score_nominal, truncToInt_92]
  · rw [report_status, overall_score_nominal]
    exact status_excellent _ (by norm_num)
  · rw [report_rec, overall_score_nominal]
    exact rec_excellent _ (by norm_num)

/-- Claim C4: the reported overall_health_score is the weighted sum truncated
toward zero (witnessed against rounding at raw score 92.6, truncated to 92, and
against flooring at raw score -114.2, truncated to -114), and health_status is
a function of the truncated integer score alone. -/
theorem C4_trunc_and_status_function :
    (∀ (f : FaceResults) (p : PostureResults) (v : Option VoiceResults),
      (create_health_report f p v).overall_health_score = truncToInt (overall_score f p)) ∧
    (create_health_report ⟨72, "Low", "Alert", 36.6⟩ ⟨88⟩ none).overall_health_score = 92 ∧
    (create_health_report ⟨300, "High", "Fatigued", 0⟩ ⟨1⟩ none).overall_health_score = -114 ∧
    (∀ (f1 : FaceResults) (p1 : PostureResults) (v1 : Option VoiceResults)
      (f2 : FaceResults) (p2 : PostureResults) (v2 : Option VoiceResults),
      (create_health_report f1 p1 v1).overall_health_score =
        (create_health_report f2 p2 v2).overall_health_score →
      (create_health_report f1 p1 v1).health_status =
        (create_health_report f2 p2 v2).health_status) := by
  refine ⟨fun f p v => report_score f p v, ?_, ?_, ?_⟩
  · rw [report_score, overall_score_posture88, truncToInt_463_5]
  · rw [report_score, overall_score_worst_p1, truncToInt_neg_571_5]
  · intro f1 p1 v1 f2 p2 v2 h
    rw [report_status, report_status]
    rw [report_score, report_score] at h
    exact health_status_of_congr _ _ h

/-- Witness for C4: two readings with raw scores 92 and 92.6 share the
truncated score 92 and therefore the status. -/
theorem C4_trunc_and_status_function_witness :
    (create_health_report ⟨72, "Low", "Alert", 36.6⟩ ⟨85⟩ none).health_status =
      (create_health_report ⟨72, "Low", "Alert", 36.6⟩ ⟨88⟩ none).health_status :=
  C4_trunc_and_status_function.2.2.2 ⟨72, "Low", "Alert", 36.6⟩ ⟨85⟩ none
    ⟨72, "Low", "Alert", 36.6⟩ ⟨88⟩ none
    (by rw [report_score, report_score, overall_score_nominal, overall_score_posture88,
      truncToInt_92, truncToInt_463_5])

/-- Claim C5: the aggregator is total — the categorical maps send Low, Moderate
and High to 90, 70, 40, send Alert, Mild Fatigue and Fatigued to 90, 70, 40,
and send every unrecognized string to the default 60 instead of failing. -/
theorem C5_total_with_defaults :
    stress_score "Low" = 90 ∧ stress_score "Moderate" = 70 ∧ stress_score "High" = 40 ∧
    fatigue_score "Alert" = 90 ∧ fatigue_score "Mild Fatigue" = 70 ∧
    fatigue_score "Fatigued" = 40 ∧
    (∀ s, s ≠ "Low" → s ≠ "Moderate" → s ≠ "High" → stress_score s = 60) ∧
    (∀ s, s ≠ "Alert" → s ≠ "Mild Fatigue" → s ≠ "Fatigued" → fatigue_score s = 60) := by
  refine ⟨rfl, rfl, rfl, rfl, rfl, rfl, ?_, ?_⟩
  · intro s h1 h2 h3; rw [stress_score, if_neg h1, if_neg h2, if_neg h3]
  · intro s h1 h2 h3; rw [fatigue_score, if_neg h1, if_neg h2, if_neg h3]

/-- Witness for C5 at two unrecognized category strings. -/
theorem C5_total_with_defaults_witness :
    stress_score "Panicked" = 60 ∧ fatigue_score "Sleepy" = 60 :=
  ⟨C5_total_with_defaults.2.2.2.2.2.2.1 "Panicked" (by decide) (by decide) (by decide),
   C5_total_with_defaults.2.2.2.2.2.2.2 "Sleepy" (by decide) (by decide) (by decide)⟩

/-- Claim C6: the aggregator is pure and deterministic — equal inputs produce
reports equal in every field. -/
theorem C6_deterministic (f1 f2 : FaceResults) (p1 p2 : PostureResults)
    (v1 v2 : Option VoiceResults) (hf : f1 = f2) (hp : p1 = p2) (hv : v1 = v2) :
    create_health_report f1 p1 v1 = create_health_report f2 p2 v2 := by
  subst hf; subst hp; subst hv; rfl

/-- Witness for C6 at the nominal reading. -/
theorem C6_deterministic_witness :
    create_health_report ⟨72, "Low", "Alert", 36.6⟩ ⟨85⟩ none =
      create_health_report ⟨72, "Low", "Alert", 36.6⟩ ⟨85⟩ none :=
  C6_deterministic ⟨72, "Low", "Alert", 36.6⟩ ⟨72, "Low", "Alert", 36.6⟩ ⟨85⟩ ⟨85⟩
    none none rfl rfl rfl

/-- Claim C7, counterexample: no draw in the support of
`np.random.randint(-10, 20)` (which excludes 20) produces a heart_rate_estimate
of 85, contradicting the claim that 85 is returned for some draw. -/
theorem C7_heart_rate_85_counterexample :
    ¬ ∃ d : ℤ, randint_neg10_20_support d ∧ heart_rate_estimate_of_draw d = 85 := by
  rintro ⟨d, ⟨h1, h2⟩, h3⟩
  rw [heart_rate_estimate_of_draw] at h3
  omega

/-- Claim C7, amended: every draw in the support of the stub's
`randint(-10, 20)` yields a heart_rate_estimate in [55, 84], and every integer
in [55, 84] — including 84 but not 85 — is produced by some draw. -/
theorem C7_amended_heart_rate_range :
    (∀ d : ℤ, randint_neg10_20_support d →
      55 ≤ heart_rate_estimate_of_draw d ∧ heart_rate_estimate_of_draw d ≤ 84) ∧
    (∀ n : ℤ, 55 ≤ n → n ≤ 84 →
      ∃ d : ℤ, randint_neg10_20_support d ∧ heart_rate_estimate_of_draw d = n) := by
  constructor
  · rintro d ⟨h1, h2⟩
    rw [heart_rate_estimate_of_draw]
    omega
  · intro n h1 h2
    exact ⟨n - 65, ⟨by omega, by omega⟩, by rw [heart_rate_estimate_of_draw]; omega⟩

/-- Witness for C7's amended theorem: the draw 0 lands in [55, 84], and 84 is
attained. -/
theorem C7_amended_heart_rate_range_witness :
    (55 ≤ heart_rate_estimate_of_draw 0 ∧ heart_rate_estimate_of_draw 0 ≤ 84) ∧
    (∃ d : ℤ, randint_neg10_20_support d ∧ heart_rate_estimate_of_draw d = 84) :=
  ⟨C7_amended_heart_rate_range.1 0 (by decide),
   C7_amended_heart_rate_range.2 84 (by decide) (by decide)⟩

/-- Claim C8: on the input sentence the text scan counts 9 words and 3 stress
keywords, computes stress_ratio 3/9, and classifies the text stress level High
because the ratio exceeds 0.1. -/
theorem C8_text_scan :
    word_count "I am so tired and stressed about the deadline" = 9 ∧
    stress_words "I am so tired and stressed about the deadline" = 3 ∧
    stress_ratio "I am so tired and stressed about the deadline" = 3 / 9 ∧
    (0.1 : ℚ) < stress_ratio "I am so tired and stressed about the deadline" ∧
    text_stress_level "I am so tired and stressed about the deadline" = "High" := by
  have hw : word_count "I am so tired and stressed about the deadline" = 9 := by decide
  have hs : stress_words "I am so tired and stressed about the deadline" = 3 := by decide
  have hm : max 1 9 = (9 : ℕ) := by decide
  have hr : stress_ratio "I am so tired and stressed about the deadline" = 3 / 9 := by
    rw [stress_ratio, hw, hs, hm]
    norm_num
  refine ⟨hw, hs, hr, by rw [hr]; norm_num, ?_⟩
  rw [text_stress_level, hr, if_pos (by norm_num)]

/-- Claim C9: whenever posture_score is at most 100, the truncated overall
score is at most 95, so the scores 96 through 100 are unreachable. -/
theorem C9_score_at_most_95 (f : FaceResults) (p : PostureResults) (v : Option VoiceResults)
    (hp : p.posture_score ≤ 100) :
    (create_health_report f p v).overall_health_score ≤ 95 ∧
    ¬ 96 ≤ (create_health_report f p v).overall_health_score := by
  have hs := stress_score_bounds f.stress_level
  have hf := fatigue_score_bounds f.fatigue_signs
  have hs2 : (stress_score f.stress_level : ℚ) ≤ 90 := by exact_mod_cast hs.2
  have hf2 : (fatigue_score f.fatigue_signs : ℚ) ≤ 90 := by exact_mod_cast hf.2
  have hp2 : (p.posture_score : ℚ) ≤ 100 := by exact_mod_cast hp
  have hh := heart_component_le f.heart_rate_estimate
  have ht := temp_component_le f.temperature_estimate
  have hscore : overall_score f p ≤ 95 := by
    rw [overall_score]; linarith
  have h95 : (create_health_report f p v).overall_health_score ≤ 95 := by
    rw [report_score]
    exact truncToInt_le_of_le _ 95 (by push_cast; linarith)
  exact ⟨h95, by omega⟩

/-- Witness for C9 at the nominal reading. -/
theorem C9_score_at_most_95_witness :
    (create_health_report ⟨72, "Low", "Alert", 36.6⟩ ⟨85⟩ none).overall_health_score ≤ 95 ∧
    ¬ 96 ≤ (create_health_report ⟨72, "Low", "Alert", 36.6⟩ ⟨85⟩ none).overall_health_score :=
  C9_score_at_most_95 ⟨72, "Low", "Alert", 36.6⟩ ⟨85⟩ none (by decide)

/-- Claim C10: the optional voice results never influence the score, status or
recommendation; a voice call only adds the vocal_stress, speech_rate and
voice_health fields, which are absent otherwise. -/
theorem C10_voice_no_interference (f : FaceResults) (p : PostureResults) (v : VoiceResults) :
    (create_health_report f p (some v)).overall_health_score
      = (create_health_report f p none).overall_health_score ∧
    (create_health_report f p (some v)).health_status
      = (create_health_report f p none).health_status ∧
    (create_health_report f p (some v)).recommendation
      = (create_health_report f p none).recommendation ∧
    (create_health_report f p (some v)).vocal_stress = some v.vocal_stress ∧
    (create_health_report f p (some v)).speech_rate = some v.speech_rate ∧
    (create_health_report f p (some v)).voice_health = some v.voice_health ∧
    (create_health_report f p none).vocal_stress = none ∧
    (create_health_report f p none).speech_rate = none ∧
    (create_health_report f p none).voice_health = none :=
  ⟨rfl, rfl, rfl, rfl, rfl, rfl, rfl, rfl, rfl⟩
